import Mathlib

/-!
Shallow embedding of the crawl backend gateway (source: `src/unnamed/part_000`,
the variant of the server implementing the documented input sanitation and
upstream-status checks; `src/server.js` is the earlier near-identical duplicate).

The embedding models, from the source:
* the JavaScript string primitives the handlers rely on
  (`String.prototype.includes`, `split` on a one-character separator, `trim`,
  `toLowerCase`, first-occurrence `replace`, `parseInt`),
* the venue normalization map and the nightlife classifier of
  `GET /api/places/nearby`,
* the `GET /api/places/nearby`, `GET /api/geocode`, `GET /api/places/details`
  and `GET /api/directions` handlers from the point where their upstream fetch
  outcome is known (the api-key and query-validation guards run before any
  fetch and are independent of it),
* `formatDuration` and `formatDistance`.

JavaScript numbers that can be `NaN` are modelled as `Option` values
(`none` = `NaN`, which `res.json` serializes as `null`); finite numeric
payloads are modelled as `ℚ`.  `Number(...)` as used by `parseLatLng` is kept
abstract as a `String → Option ℚ` parameter (`none` = not a finite number).
-/

namespace Crawl

/-- `isPrefixL pat s` : `pat` is a prefix of `s` (character lists). -/
def isPrefixL : List Char → List Char → Bool
  | [], _ => true
  | _ :: _, [] => false
  | p :: ps, c :: cs => p == c && isPrefixL ps cs

/-- `isInfixL pat s` : `pat` occurs contiguously inside `s`. -/
def isInfixL (pat : List Char) : List Char → Bool
  | [] => isPrefixL pat []
  | c :: cs => isPrefixL pat (c :: cs) || isInfixL pat cs

/-- JS `s.includes(pat)` (substring containment). -/
def jsIncludes (s pat : String) : Bool :=
  isInfixL pat.data s.data

/-- JS `s.toLowerCase()` (the source only ever lowercases ASCII names). -/
def jsToLower (s : String) : String :=
  ⟨s.data.map Char.toLower⟩

/-- `splitChar sep cs` : split a character list on a separator character;
`[]` yields `[[]]`, matching JS `"".split(sep) = [""]`. -/
def splitChar (sep : Char) : List Char → List (List Char)
  | [] => [[]]
  | c :: cs =>
    if c == sep then [] :: splitChar sep cs
    else
      match splitChar sep cs with
      | t :: ts => (c :: t) :: ts
      | [] => [[c]]

/-- JS `s.split(sep)` for a one-character separator (the source only splits on
`','` and `'|'`). -/
def jsSplit (s : String) (sep : Char) : List String :=
  (splitChar sep s.data).map fun l => ⟨l⟩

/-- JS `s.trim()` : strip leading and trailing whitespace. -/
def jsTrim (s : String) : String :=
  ⟨((s.data.dropWhile Char.isWhitespace).reverse.dropWhile Char.isWhitespace).reverse⟩

/-- Decimal value of a digit list (used by the `parseInt` model). -/
def digitsToNat (ds : List Char) : Nat :=
  ds.foldl (fun acc c => acc * 10 + (c.toNat - 48)) 0

/-- JS `parseInt(s)` in base 10: skip leading whitespace, optional sign,
longest leading digit run; no digits means `NaN` (`none`).  The `0x` radix
prefix is not modelled; no string the source feeds to `parseInt` is hex. -/
def jsParseInt (s : String) : Option Int :=
  let cs := s.data.dropWhile Char.isWhitespace
  let signRest : Int × List Char :=
    match cs with
    | '-' :: r => (-1, r)
    | '+' :: r => (1, r)
    | r => (1, r)
  let ds := signRest.2.takeWhile Char.isDigit
  if ds.isEmpty then none
  else some (signRest.1 * (digitsToNat ds : Int))

/-- First-occurrence replacement on character lists. -/
def replaceFirstL (pat repl : List Char) : List Char → List Char
  | [] => []
  | c :: cs =>
    if isPrefixL pat (c :: cs) then repl ++ (c :: cs).drop pat.length
    else c :: replaceFirstL pat repl cs

/-- JS `s.replace(pat, repl)` with string arguments: replaces the first
occurrence only (the source uses it with patterns `"PRICE_LEVEL_"` and
`"s"`, both non-empty). -/
def jsReplaceFirst (s pat repl : String) : String :=
  ⟨replaceFirstL pat.data repl.data s.data⟩

/-- Upstream `displayName` object: `{ text?: string }`. -/
structure RawDisplayName where
  text : Option String := none
deriving DecidableEq

/-- Upstream `location` object: `{ latitude?, longitude? }`. -/
structure RawLocation where
  latitude : Option ℚ := none
  longitude : Option ℚ := none
deriving DecidableEq

/-- Upstream `currentOpeningHours` object: `{ openNow?: boolean }`. -/
structure RawOpeningHours where
  openNow : Option Bool := none
deriving DecidableEq

/-- An upstream place record: a JSON object in which every field may be
absent (`none`). -/
structure RawPlace where
  id : Option String := none
  displayName : Option RawDisplayName := none
  formattedAddress : Option String := none
  location : Option RawLocation := none
  rating : Option ℚ := none
  userRatingCount : Option Nat := none
  priceLevel : Option String := none
  currentOpeningHours : Option RawOpeningHours := none
  types : Option (List String) := none
  primaryType : Option String := none
  internationalPhoneNumber : Option String := none
  websiteUri : Option String := none
  googleMapsUri : Option String := none
deriving DecidableEq

/-- The optional chain `place.displayName?.text`. -/
def rawNameText (place : RawPlace) : Option String :=
  place.displayName.bind RawDisplayName.text

/-- JS `x || dflt` for a possibly-absent string `x`: both `undefined` and
`""` are falsy and yield the default. -/
def jsOrString : Option String → String → String
  | some s, dflt => if s.isEmpty then dflt else s
  | none, dflt => dflt

/-- JS `x || null` for a possibly-absent string `x`: `undefined` and `""`
both become `null`. -/
def jsOrNull : Option String → Option String
  | some s => if s.isEmpty then none else some s
  | none => none

/-- `place.priceLevel ? parseInt(place.priceLevel.replace('PRICE_LEVEL_', '')) : 3`.
An absent or empty (falsy) tier yields `3`; otherwise the result is
`parseInt` of the tier with its `PRICE_LEVEL_` prefix removed, which is
`NaN` (`none`) when no digits lead the stripped token. -/
def priceLevelValue : Option String → Option Int
  | none => some 3
  | some t =>
    if t.isEmpty then some 3
    else jsParseInt (jsReplaceFirst t "PRICE_LEVEL_" "")

/-- The canonical venue record built by the normalization map
(`src/unnamed/part_000` lines 119-132). -/
structure Venue where
  place_id : Option String
  name : String
  lat : Option ℚ
  lng : Option ℚ
  rating : ℚ
  user_ratings_total : Nat
  price_level : Option Int
  vicinity : String
  types : List String
  open_now : Option Bool
  phone : Option String
  website : Option String
  maps_url : Option String
deriving DecidableEq

/-- The venue normalization map of `GET /api/places/nearby` (and, identically,
of `GET /api/places/details`), field for field from the source. -/
def normalize (place : RawPlace) : Venue :=
  { place_id := place.id
    name := jsOrString (rawNameText place) "Unknown"
    lat := place.location.bind RawLocation.latitude
    lng := place.location.bind RawLocation.longitude
    rating := place.rating.getD 0
    user_ratings_total := place.userRatingCount.getD 0
    price_level := priceLevelValue place.priceLevel
    vicinity := place.formattedAddress.getD ""
    types := place.types.getD []
    open_now := place.currentOpeningHours.bind RawOpeningHours.openNow
    phone := jsOrNull place.internationalPhoneNumber
    website := jsOrNull place.websiteUri
    maps_url := jsOrNull place.googleMapsUri }

/-- `const barTypes = ['bar', 'night_club', 'pub', 'wine_bar', 'cocktail_bar', 'lounge']`. -/
def barTypes : List String :=
  ["bar", "night_club", "pub", "wine_bar", "cocktail_bar", "lounge"]

/-- `const name = (place.displayName?.text || '').toLowerCase()`. -/
def lowerName (place : RawPlace) : String :=
  jsToLower (jsOrString (rawNameText place) "")

/-- The nightlife classifier: the `filter` predicate of
`GET /api/places/nearby` (`src/unnamed/part_000` lines 108-118),
with `primaryType = place.primaryType || ''` and `types = place.types || []`. -/
def isNightlifeVenue (place : RawPlace) : Bool :=
  barTypes.any fun bt =>
    jsIncludes (jsOrString place.primaryType "") bt ||
    (place.types.getD []).any (fun t => jsIncludes t bt || jsIncludes t "bar") ||
    jsIncludes (lowerName place) "bar" || jsIncludes (lowerName place) "lounge" ||
    jsIncludes (lowerName place) "club" || jsIncludes (lowerName place) "pub"

/-- The classifier as the specification words it: a candidate passes iff its
primary category contains a keyword, OR some category tag contains a keyword
or the substring `"bar"`, OR its lowercased display name contains `"bar"`,
`"lounge"`, `"club"` or `"pub"`. -/
def isNightlifeVenueSpec (place : RawPlace) : Bool :=
  (barTypes.any fun bt => jsIncludes (jsOrString place.primaryType "") bt) ||
  ((place.types.getD []).any fun t =>
    (barTypes.any fun bt => jsIncludes t bt) || jsIncludes t "bar") ||
  jsIncludes (lowerName place) "bar" || jsIncludes (lowerName place) "lounge" ||
  jsIncludes (lowerName place) "club" || jsIncludes (lowerName place) "pub"

/-- Outcome of one upstream `fetch`: either the response is not ok
(`!response.ok`, carrying the non-success HTTP status) or it produced a
parsed JSON payload. -/
inductive FetchResult (α : Type) where
  | transportFail (status : Nat)
  | ok (data : α)
deriving DecidableEq

/-- Payload of the places text-search response: `data.places` may be absent,
`data.error` is the upstream-attached error detail (modelled by its message;
present iff the field is, which is how the handler tests it). -/
structure NearbyData where
  places : Option (List RawPlace) := none
  error : Option String := none

/-- Response of `GET /api/places/nearby` past the fetch: a 502 upstream
failure, or a JSON envelope `{results, status, error?}` (the success branch
sends no `error` field, modelled `none`). -/
inductive NearbyResponse where
  | upstreamFail (code : Nat) (msg : String)
  | results (results : List Venue) (status : String) (error : Option String)
deriving DecidableEq

/-- `GET /api/places/nearby` from the fetch outcome on
(`src/unnamed/part_000` lines 99-136): `!response.ok` is a 502; a payload
with a `places` list (even an empty one — `[]` is truthy) is filtered through
the classifier and mapped through the normalizer with status `OK`; otherwise
the result is empty with status `ERROR` when upstream attached an error and
`ZERO_RESULTS` when it did not. -/
def nearbyHandler : FetchResult NearbyData → NearbyResponse
  | .transportFail status =>
    .upstreamFail 502 ("Places API failed with status " ++ toString status)
  | .ok data =>
    match data.places with
    | some places =>
      .results ((places.filter isNightlifeVenue).map normalize) "OK" none
    | none =>
      .results [] (if data.error.isSome then "ERROR" else "ZERO_RESULTS") data.error

/-- Response of `GET /api/geocode` past the fetch: 502 on `!response.ok`,
otherwise the upstream payload passed through unmodified (payload kept
opaque as a string). -/
inductive GeocodeResponse where
  | upstreamFail (code : Nat) (msg : String)
  | passthrough (data : String)
deriving DecidableEq

/-- `GET /api/geocode` from the fetch outcome on
(`src/unnamed/part_000` lines 56-60). -/
def geocodeHandler : FetchResult String → GeocodeResponse
  | .transportFail status =>
    .upstreamFail 502 ("Geocode API failed with status " ++ toString status)
  | .ok data => .passthrough data

/-- Identifier sanitation of `GET /api/places/details`
(`src/unnamed/part_000` lines 151-155):
`ids.split(',').map(id => id.trim()).filter(Boolean).slice(0, 10)`. -/
def sanitizeIds (ids : String) : List String :=
  ((((jsSplit ids ',').map jsTrim).filter fun s => !s.isEmpty)).take 10

/-- Outcome of one place-by-identifier lookup: transport failure
(`!response.ok`), a successfully delivered payload flagging an upstream
error (`place.error`), or a place record. -/
inductive LookupOutcome where
  | transportFail (status : Nat)
  | upstreamError (msg : String)
  | found (place : RawPlace)

/-- The body of the per-identifier async callback
(`src/unnamed/part_000` lines 160-185): failed lookups become `null`
(`none`), successful ones the normalized venue. -/
def lookupVenue : LookupOutcome → Option Venue
  | .transportFail _ => none
  | .upstreamError _ => none
  | .found place => some (normalize place)

/-- Response of `GET /api/places/details`: a 400 client error or the JSON
envelope `{results, status}`. -/
inductive DetailsResponse where
  | clientError (msg : String)
  | ok (results : List Venue) (status : String)
deriving DecidableEq

/-- `GET /api/places/details` (`src/unnamed/part_000` lines 143-191),
with the per-identifier lookups abstracted as `lookup` and the raw `ids`
query parameter as `Option String` (`none` = absent; `!ids` also catches
the empty string).  `Promise.all` joins the concurrent lookups by input
position, so the join is the position-aligned `map`; `results.filter(Boolean)`
is `reduceOption`. -/
def detailsHandler (lookup : String → LookupOutcome) :
    Option String → DetailsResponse
  | none => .clientError "Missing ids parameter"
  | some ids =>
    if ids = "" then .clientError "Missing ids parameter"
    else
      let placeIds := sanitizeIds ids
      if placeIds = [] then .clientError "No valid ids provided"
      else .ok ((placeIds.map fun i => lookupVenue (lookup i)).reduceOption) "OK"

/-- `parseLatLng` (`src/unnamed/part_000` lines 27-32), with JS `Number`
abstracted as `num : String → Option ℚ` (`none` = not a finite number;
note JS `Number('') = 0`, so a faithful `num` maps `""` to `some 0` — the
guard `!value` catches the whole-string-empty case before that).  The JS
destructuring `[lat, lng]` takes the first two parsed segments and leaves
`lng` undefined (hence non-finite) when there is only one. -/
def parseLatLng (num : String → Option ℚ) (value : String) : Option (ℚ × ℚ) :=
  if value = "" then none
  else
    match (jsSplit value ',').map num with
    | some lat :: some lng :: _ => some (lat, lng)
    | _ => none

/-- Waypoint sanitation of `GET /api/directions`
(`src/unnamed/part_000` lines 213-217):
`waypoints.split('|').map(parseLatLng).filter(Boolean).slice(0, 8)`. -/
def sanitizeWaypoints (num : String → Option ℚ) (w : String) : List (ℚ × ℚ) :=
  (((jsSplit w '|').map (parseLatLng num)).reduceOption).take 8

/-- The upstream routing request body built by `GET /api/directions`
(`src/unnamed/part_000` lines 206-223); `none` when origin or destination
fails to parse (the handler then answers 400 before any fetch).
`intermediates` is set only when the `waypoints` parameter is truthy and at
least one waypoint survives sanitation. -/
structure DirectionsBody where
  originLat : ℚ
  originLng : ℚ
  destLat : ℚ
  destLng : ℚ
  travelMode : String
  intermediates : Option (List (ℚ × ℚ))
deriving DecidableEq

/-- Builds the routing request body from the raw query parameters. -/
def buildDirectionsBody (num : String → Option ℚ)
    (origin destination : String) (waypoints : Option String) :
    Option DirectionsBody :=
  match parseLatLng num origin, parseLatLng num destination with
  | some o, some d =>
    some
      { originLat := o.1
        originLng := o.2
        destLat := d.1
        destLng := d.2
        travelMode := "DRIVE"
        intermediates :=
          match waypoints with
          | none => none
          | some w =>
            if w = "" then none
            else
              let pw := sanitizeWaypoints num w
              if pw = [] then none else some pw }
  | _, _ => none

/-- `formatDuration(seconds)` (`src/unnamed/part_000` lines 259-262).
`Math.round(seconds / 60)` rounds half toward positive infinity, i.e.
`⌊seconds/60 + 1/2⌋ = (2*seconds + 60).fdiv 120`; `Math.floor(mins/60)` is
`Int.fdiv`, and for the non-negative `mins ≥ 60` of that branch JS `%`
agrees with `Int.emod`. -/
def formatDuration (seconds : Int) : String :=
  let mins := Int.fdiv (2 * seconds + 60) 120
  if mins < 60 then toString mins ++ " mins"
  else toString (Int.fdiv mins 60) ++ " hr " ++ toString (mins % 60) ++ " mins"

/-- `formatDistance(meters)` (`src/unnamed/part_000` lines 264-266).
`(meters / 1000).toFixed(1)` rounds the exact quotient to one decimal,
half away from zero for the non-negative meter counts involved:
tenths digit `(meters + 50) / 100`. -/
def formatDistance (meters : Nat) : String :=
  if meters < 1000 then toString meters ++ " m"
  else
    let tenths := (meters + 50) / 100
    toString (tenths / 10) ++ "." ++ toString (tenths % 10) ++ " km"

/-- Upstream `polyline` object of a route. -/
structure RawPolyline where
  encodedPolyline : Option String := none
deriving DecidableEq

/-- One leg of an upstream route: `duration` is the textually encoded
seconds with trailing `s` suffix (may be absent), `distanceMeters` a
meter count (may be absent). -/
structure UpLeg where
  duration : Option String := none
  distanceMeters : Option Nat := none
deriving DecidableEq

/-- One upstream candidate route. -/
structure UpRoute where
  legs : List UpLeg := []
  polyline : Option RawPolyline := none
deriving DecidableEq

/-- Payload of the routes response: `data.routes` may be absent, `data.error`
is the upstream error detail. -/
structure RoutesData where
  routes : Option (List UpRoute) := none
  error : Option String := none

/-- `parseInt(leg.duration?.replace('s', '') || 0)` : an absent or empty
duration string falls back to `parseInt(0) = 0`; otherwise the first `s`
is removed and the remainder parsed (`none` = `NaN`). -/
def legDurationSeconds (leg : UpLeg) : Option Int :=
  match leg.duration with
  | none => some 0
  | some d =>
    if d.isEmpty then some 0
    else jsParseInt (jsReplaceFirst d "s" "")

/-- An output route leg: `{duration: {value, text}, distance: {value, text}}`. -/
structure Leg where
  duration_value : Option Int
  duration_text : String
  distance_value : Nat
  distance_text : String
deriving DecidableEq

/-- The per-leg map of the found-route branch
(`src/unnamed/part_000` lines 244-247).  When the parsed duration is `NaN`
the JS string arithmetic renders `"NaN hr NaN mins"`. -/
def mkLeg (leg : UpLeg) : Leg :=
  { duration_value := legDurationSeconds leg
    duration_text :=
      match legDurationSeconds leg with
      | some n => formatDuration n
      | none => "NaN hr NaN mins"
    distance_value := leg.distanceMeters.getD 0
    distance_text := formatDistance (leg.distanceMeters.getD 0) }

/-- The single route object the handler returns. -/
structure RouteOut where
  legs : List Leg
  overview_polyline : String
deriving DecidableEq

/-- Response of `GET /api/directions` past the fetch: 502 upstream failure,
a found route (`{routes: [route]}`), or the explicit no-route envelope
`{routes: [], error}`. -/
inductive DirectionsResponse where
  | upstreamFail (code : Nat) (msg : String)
  | found (route : RouteOut)
  | noRoute (error : Option String)
deriving DecidableEq

/-- `GET /api/directions` from the fetch outcome on
(`src/unnamed/part_000` lines 234-253): `data.routes?.length > 0` selects the
first candidate route; otherwise `{routes: [], error: data.error}`. -/
def directionsHandler : FetchResult RoutesData → DirectionsResponse
  | .transportFail status =>
    .upstreamFail 502 ("Routes API failed with status " ++ toString status)
  | .ok data =>
    match data.routes with
    | some (route :: _) =>
      .found
        { legs := route.legs.map mkLeg
          overview_polyline :=
            (route.polyline.bind RawPolyline.encodedPolyline).getD "" }
    | _ => .noRoute data.error

/-! ### Concrete fixtures used by the verification theorems -/

/-- A toy finite-number parser standing in for JS `Number` in witnesses:
parses single decimal digits only. -/
def testNum (s : String) : Option ℚ :=
  match s.data with
  | [c] => if c.isDigit then some ((c.toNat - 48 : Nat) : ℚ) else none
  | _ => none

/-- The minimal upstream record: an identifier and nothing else. -/
def minimalPlace : RawPlace := { id := some "venue-1" }

/-- A record whose price tier is the non-numeric token `MODERATE`. -/
def moderatePlace : RawPlace :=
  { id := some "venue-2", priceLevel := some "MODERATE" }

/-- A record whose price tier is `PRICE_LEVEL_2`. -/
def priceTwoPlace : RawPlace := { priceLevel := some "PRICE_LEVEL_2" }

/-- A nightclub-typed candidate whose name suggests nothing nightlife-like. -/
def nightClubPlace : RawPlace :=
  { displayName := some { text := some "Quiet Teahouse" },
    primaryType := some "night_club" }

/-- The display name string with an apostrophe, built character by character. -/
def joesBarName : String :=
  ⟨['J', 'o', 'e', Char.ofNat 39, 's', ' ', 'B', 'a', 'r']⟩

/-- A candidate named after Joe, with no category tags at all. -/
def joesBarPlace : RawPlace :=
  { displayName := some { text := some joesBarName }, types := some [] }

/-- A cafe candidate that must fail the classifier. -/
def coffeePlace : RawPlace :=
  { displayName := some { text := some "Coffee House" }, types := some ["cafe"] }

/-- A bar-typed candidate surviving the nearby-search filter. -/
def barPlace : RawPlace :=
  { id := some "venue-3", displayName := some { text := some "Neon Bar" },
    primaryType := some "bar" }

/-- A nearby-search payload with one passing and one failing candidate. -/
def nearbyDataEx : NearbyData := { places := some [barPlace, coffeePlace] }

/-- A routes payload carrying zero candidate routes plus an error detail. -/
def noRouteData : RoutesData :=
  { routes := some [], error := some "NOT_FOUND" }

/-- A lookup environment: identifier `x` resolves, everything else
transport-fails. -/
def lookupEx : String → LookupOutcome := fun i =>
  if i = "x" then .found minimalPlace else .transportFail 500

/-- The venue used as the (never observed) default when extracting an
already-checked successful lookup. -/
def emptyVenue : Venue := normalize {}

/-! ### Helper lemmas -/

/-- `any` distributes over a pointwise disjunction. -/
lemma any_or_distrib {α : Type} (l : List α) (f g : α → Bool) :
    (l.any fun a => f a || g a) = (l.any f || l.any g) := by
  induction l with
  | nil => rfl
  | cons a t ih =>
    simp only [List.any_cons, ih]
    cases f a <;> cases g a <;> cases t.any f <;> cases t.any g <;> rfl

/-- Two booleans agreeing as propositions are equal. -/
lemma bool_of_iff (x y : Bool) (h : (x = true) ↔ (y = true)) : x = y := by
  revert h
  revert x y
  decide

/-- The classifier of the source equals the flat disjunction the
specification describes. -/
lemma classifier_eq (p : RawPlace) :
    isNightlifeVenue p = isNightlifeVenueSpec p := by
  unfold isNightlifeVenue isNightlifeVenueSpec barTypes
  apply bool_of_iff
  simp only [List.any_cons, List.any_nil, any_or_distrib, Bool.or_false,
    Bool.or_eq_true]
  tauto

/-- Collapsing a mapped option list is the same as keeping the arguments whose
image is `some` and extracting, in order. -/
lemma reduceOption_map_eq_filter {α β : Type} (l : List α) (f : α → Option β)
    (d : β) :
    (l.map f).reduceOption
      = (l.filter fun a => (f a).isSome).map fun a => (f a).getD d := by
  induction l with
  | nil => rfl
  | cons a t ih =>
    cases h : f a <;>
      simp [List.filter_cons, h, List.reduceOption_cons_of_some,
        List.reduceOption_cons_of_none, ih]

/-- Collapsing a mapped option list is `filterMap`. -/
lemma map_reduceOption_eq_filterMap {α β : Type} (l : List α)
    (f : α → Option β) :
    (l.map f).reduceOption = l.filterMap f := by
  induction l with
  | nil => rfl
  | cons a t ih =>
    cases h : f a <;>
      simp [h, ih, List.filterMap_cons, List.reduceOption_cons_of_some,
        List.reduceOption_cons_of_none]

/-- The non-empty-after-sanitation branch of the details handler. -/
lemma detailsHandler_ok (ids : String) (lookup : String → LookupOutcome)
    (h : sanitizeIds ids ≠ []) :
    detailsHandler lookup (some ids)
      = .ok (((sanitizeIds ids).map fun i => lookupVenue (lookup i)).reduceOption)
          "OK" := by
  have hne : ids ≠ "" := by
    intro he
    apply h
    rw [he]
    decide
  simp [detailsHandler, hne, h]

/-! ### Claim C1 -/

/-- Claim C1: the venue normalizer is total (it is a total function of the raw
place record, every field of which may be absent), and the minimal record
containing only an identifier yields a Venue with name `"Unknown"`, rating 0,
ratingCount 0, priceLevel 3, empty address and empty categoryTags. -/
theorem normalizer_minimal_defaults :
    normalize minimalPlace
      = { place_id := some "venue-1", name := "Unknown", lat := none,
          lng := none, rating := 0, user_ratings_total := 0,
          price_level := some 3, vicinity := "", types := [],
          open_now := none, phone := none, website := none,
          maps_url := none } := by
  decide

/-! ### Claim C2 -/

/-- Counterexample to claim C2: for the unrecognized non-empty tier token
`"MODERATE"` the normalized priceLevel is not 3 but `NaN` (modelled `none`,
serialized as `null`), because the code computes
`parseInt('MODERATE'.replace('PRICE_LEVEL_', ''))`. -/
theorem price_level_unrecognized_not_three :
    moderatePlace.priceLevel = some "MODERATE"
    ∧ (normalize moderatePlace).price_level = none
    ∧ (normalize moderatePlace).price_level ≠ some 3 := by
  decide

/-- Claim C2 as amended: the normalized priceLevel is 3 when the upstream
tier is absent or empty (falsy); for a non-empty tier it is `parseInt` of
the token with its `PRICE_LEVEL_` prefix removed — an integer 0–4 for the
numeric tokens `PRICE_LEVEL_0` … `PRICE_LEVEL_4` — and for an unrecognized
token with no leading digits (e.g. `MODERATE`) it is `NaN` (`none`), not 3;
no case crashes. -/
theorem price_level_mapping (p : RawPlace) :
    (p.priceLevel = none → (normalize p).price_level = some 3)
    ∧ (p.priceLevel = some "" → (normalize p).price_level = some 3)
    ∧ (p.priceLevel = some "PRICE_LEVEL_0" → (normalize p).price_level = some 0)
    ∧ (p.priceLevel = some "PRICE_LEVEL_1" → (normalize p).price_level = some 1)
    ∧ (p.priceLevel = some "PRICE_LEVEL_2" → (normalize p).price_level = some 2)
    ∧ (p.priceLevel = some "PRICE_LEVEL_3" → (normalize p).price_level = some 3)
    ∧ (p.priceLevel = some "PRICE_LEVEL_4" → (normalize p).price_level = some 4)
    ∧ (p.priceLevel = some "MODERATE" → (normalize p).price_level = none) := by
  refine ⟨?_, ?_, ?_, ?_, ?_, ?_, ?_, ?_⟩ <;>
    (intro h
     show priceLevelValue p.priceLevel = _
     rw [h]
     decide)

/-- Witness for the amended claim C2 at concrete tiers. -/
theorem price_level_mapping_witness :
    (normalize minimalPlace).price_level = some 3
    ∧ (normalize priceTwoPlace).price_level = some 2
    ∧ (normalize moderatePlace).price_level = none := by
  refine ⟨(price_level_mapping minimalPlace).1 rfl, ?_, ?_⟩
  · exact (price_level_mapping priceTwoPlace).2.2.2.2.1 rfl
  · exact (price_level_mapping moderatePlace).2.2.2.2.2.2.2 rfl

/-! ### Claim C3 -/

/-- Counterexample to claim C3: `formatDuration` consumes seconds, so input
60 renders `"1 mins"` (one minute), not `"1 hr 0 mins"`, and 125 renders
`"2 mins"`, not `"2 hr 5 mins"`. -/
theorem formatDuration_claim_counterexample :
    formatDuration 60 = "1 mins" ∧ formatDuration 60 ≠ "1 hr 0 mins"
    ∧ formatDuration 125 = "2 mins" ∧ formatDuration 125 ≠ "2 hr 5 mins" := by
  decide

/-- Claim C3 as amended: `formatDuration` returns `"0 mins"` for 0 and
`"1 mins"` for 59 (rounding up); since its input is seconds, 60 yields
`"1 mins"` and 125 yields `"2 mins"`, while the hour-rendering cases the
claim intends arise at 3600 → `"1 hr 0 mins"` and 7500 → `"2 hr 5 mins"`. -/
theorem formatDuration_values :
    formatDuration 0 = "0 mins"
    ∧ formatDuration 59 = "1 mins"
    ∧ formatDuration 60 = "1 mins"
    ∧ formatDuration 125 = "2 mins"
    ∧ formatDuration 3600 = "1 hr 0 mins"
    ∧ formatDuration 7500 = "2 hr 5 mins" := by
  decide

/-! ### Claim C4 -/

/-- Claim C4: the nightlife classifier accepts a raw place iff its primary
category contains one of the keywords
{bar, night_club, pub, wine_bar, cocktail_bar, lounge}, or some category tag
contains a keyword or the substring `"bar"`, or its lowercased display name
contains `"bar"`, `"lounge"`, `"club"` or `"pub"`; in particular a candidate
with primary category `"night_club"` passes regardless of its other fields,
a candidate named after Joe's bar with no category tags passes, and a
candidate named `"Coffee House"` with categories `["cafe"]` fails. -/
theorem classifier_characterization :
    (∀ p : RawPlace, isNightlifeVenue p = isNightlifeVenueSpec p)
    ∧ (∀ p : RawPlace, p.primaryType = some "night_club" →
        isNightlifeVenue p = true)
    ∧ isNightlifeVenue joesBarPlace = true
    ∧ isNightlifeVenue coffeePlace = false := by
  refine ⟨classifier_eq, ?_, by decide, by decide⟩
  intro p h
  unfold isNightlifeVenue
  refine List.any_eq_true.mpr ⟨"night_club", by decide, ?_⟩
  rw [h]
  have hh : jsIncludes (jsOrString (some "night_club") "") "night_club" = true := by
    decide
  simp [hh]

/-- Witness for claim C4: the nightclub-typed teahouse passes. -/
theorem classifier_characterization_witness :
    isNightlifeVenue nightClubPlace = true :=
  classifier_characterization.2.1 nightClubPlace rfl

/-! ### Claim C5 -/

/-- Claim C5: whenever the upstream search payload carries a candidate list,
the nearby-search result is exactly the normalization of the candidates that
satisfy the nightlife classifier, with status OK; the filtered list is a
sublist of the upstream list (relative order preserved, no re-ranking) and
contains precisely the classifier-accepted candidates. -/
theorem nearby_filter_map_pipeline (data : NearbyData) (ps : List RawPlace)
    (h : data.places = some ps) :
    nearbyHandler (.ok data)
      = .results ((ps.filter isNightlifeVenue).map normalize) "OK" none
    ∧ List.Sublist (ps.filter isNightlifeVenue) ps
    ∧ ∀ p : RawPlace,
        p ∈ ps.filter isNightlifeVenue ↔ p ∈ ps ∧ isNightlifeVenue p = true := by
  refine ⟨?_, List.filter_sublist ps, fun p => List.mem_filter⟩
  simp [nearbyHandler, h]

/-- Witness for claim C5 on a two-candidate payload. -/
theorem nearby_filter_map_pipeline_witness :
    nearbyHandler (.ok nearbyDataEx) = .results [normalize barPlace] "OK" none := by
  have h := (nearby_filter_map_pipeline nearbyDataEx [barPlace, coffeePlace] rfl).1
  rw [h]
  decide

/-! ### Claim C6 -/

/-- Claim C6: the venue-details batch sanitizes its identifier list by
trimming each identifier, dropping empty ones and capping at the first 10;
an empty sanitized list is a client error decided without consulting any
lookup, while transport-failed and upstream-error lookups map to `null` and
are dropped, the batch succeeding with status OK on the surviving venues. -/
theorem details_batch_behavior (ids : String) (lookup : String → LookupOutcome) :
    sanitizeIds ids
      = (((jsSplit ids ',').map jsTrim).filter fun s => !s.isEmpty).take 10
    ∧ (sanitizeIds ids = [] →
        ∃ msg, ∀ lk : String → LookupOutcome,
          detailsHandler lk (some ids) = .clientError msg)
    ∧ (sanitizeIds ids ≠ [] →
        detailsHandler lookup (some ids)
          = .ok (((sanitizeIds ids).map fun i => lookupVenue (lookup i)).reduceOption)
              "OK")
    ∧ (∀ st, lookupVenue (.transportFail st) = none)
    ∧ (∀ m, lookupVenue (.upstreamError m) = none)
    ∧ (∀ p, lookupVenue (.found p) = some (normalize p)) := by
  refine ⟨rfl, ?_, fun h => detailsHandler_ok ids lookup h,
    fun _ => rfl, fun _ => rfl, fun _ => rfl⟩
  intro hempty
  by_cases hids : ids = ""
  · exact ⟨"Missing ids parameter", fun lk => by simp [detailsHandler, hids]⟩
  · exact ⟨"No valid ids provided", fun lk => by
      simp [detailsHandler, hids, hempty]⟩

/-- Witness for claim C6: two identifiers survive sanitation, the second
lookup transport-fails and is dropped, the batch succeeds with status OK. -/
theorem details_batch_behavior_witness :
    sanitizeIds " x ,, y " ≠ []
    ∧ detailsHandler lookupEx (some " x ,, y ")
        = .ok [normalize minimalPlace] "OK" := by
  refine ⟨by decide, ?_⟩
  have h := (details_batch_behavior " x ,, y " lookupEx).2.2.1 (by decide)
  rw [h]
  decide

/-! ### Claim C7 -/

/-- Claim C7: an upstream call failing at the transport/status level is
surfaced as a distinct 502 upstream-unavailable error by the nearby-search,
geocode and directions operations, never as an empty success-shaped result
(zero matches / no route). -/
theorem transport_failure_surfaced (st : Nat) :
    nearbyHandler (.transportFail st)
      = .upstreamFail 502 ("Places API failed with status " ++ toString st)
    ∧ (∀ vs stat err, nearbyHandler (.transportFail st) ≠ .results vs stat err)
    ∧ geocodeHandler (.transportFail st)
      = .upstreamFail 502 ("Geocode API failed with status " ++ toString st)
    ∧ (∀ d, geocodeHandler (.transportFail st) ≠ .passthrough d)
    ∧ directionsHandler (.transportFail st)
      = .upstreamFail 502 ("Routes API failed with status " ++ toString st)
    ∧ (∀ e, directionsHandler (.transportFail st) ≠ .noRoute e)
    ∧ (∀ r, directionsHandler (.transportFail st) ≠ .found r) := by
  refine ⟨rfl, ?_, rfl, ?_, rfl, ?_, ?_⟩
  · intro vs stat err
    simp [nearbyHandler]
  · intro d
    simp [geocodeHandler]
  · intro e
    simp [directionsHandler]
  · intro r
    simp [directionsHandler]

/-- Witness for claim C7 at status 404. -/
theorem transport_failure_surfaced_witness :
    nearbyHandler (.transportFail 404)
      = .upstreamFail 502 "Places API failed with status 404" := by
  have h := (transport_failure_surfaced 404).1
  rw [h]
  decide

/-! ### Claim C8 -/

/-- Claim C8: an upstream routing response carrying zero candidate routes
(or no routes field) yields the explicit no-route envelope
`{routes: [], error: data.error}` — the upstream error detail is carried
along — and neither a transport-failure error nor a found route. -/
theorem zero_routes_noroute (data : RoutesData)
    (h : data.routes = none ∨ data.routes = some []) :
    directionsHandler (.ok data) = .noRoute data.error
    ∧ (∀ c m, directionsHandler (.ok data) ≠ .upstreamFail c m)
    ∧ (∀ r, directionsHandler (.ok data) ≠ .found r) := by
  have hmain : directionsHandler (.ok data) = .noRoute data.error := by
    rcases h with h | h <;> simp [directionsHandler, h]
  refine ⟨hmain, ?_, ?_⟩
  · intro c m
    rw [hmain]
    simp
  · intro r
    rw [hmain]
    simp

/-- Witness for claim C8 on an empty routes list with error detail. -/
theorem zero_routes_noroute_witness :
    directionsHandler (.ok noRouteData) = .noRoute (some "NOT_FOUND") := by
  have h := (zero_routes_noroute noRouteData (Or.inr rfl)).1
  rw [h]
  rfl

/-! ### Claim C9 -/

/-- Claim C9: the waypoint list is built by splitting the raw string on
`"|"`, parsing each segment independently as `"lat,lng"`, silently dropping
every segment that does not parse to two finite numbers, truncating to the
first 8 coordinates (the kept segments being an order-preserving sublist of
the split), and carrying the survivors into the routing request body in
input order. -/
theorem waypoint_pipeline (num : String → Option ℚ)
    (origin destination w : String) (o d : ℚ × ℚ)
    (ho : parseLatLng num origin = some o)
    (hd : parseLatLng num destination = some d) (hw : w ≠ "") :
    sanitizeWaypoints num w
      = ((jsSplit w '|').filterMap (parseLatLng num)).take 8
    ∧ List.Sublist
        ((jsSplit w '|').filter fun s => (parseLatLng num s).isSome)
        (jsSplit w '|')
    ∧ sanitizeWaypoints num w
        = (((jsSplit w '|').filter fun s => (parseLatLng num s).isSome).map
            fun s => (parseLatLng num s).getD (0, 0)).take 8
    ∧ ∃ body, buildDirectionsBody num origin destination (some w) = some body
        ∧ body.intermediates
            = if sanitizeWaypoints num w = [] then none
              else some (sanitizeWaypoints num w) := by
  refine ⟨?_, List.filter_sublist _, ?_, ?_⟩
  · unfold sanitizeWaypoints
    rw [map_reduceOption_eq_filterMap]
  · unfold sanitizeWaypoints
    rw [reduceOption_map_eq_filter ((jsSplit w '|')) (parseLatLng num) (0, 0)]
  · unfold buildDirectionsBody
    rw [ho, hd]
    refine ⟨_, rfl, ?_⟩
    dsimp only
    rw [if_neg hw]

/-- Witness for claim C9 with a toy number parser: the malformed middle
segment is dropped, the request carries the two survivors in order. -/
theorem waypoint_pipeline_witness :
    sanitizeWaypoints testNum "5,6|x|7,8" = [(5, 6), (7, 8)]
    ∧ ∃ body,
        buildDirectionsBody testNum "1,2" "3,4" (some "5,6|x|7,8") = some body
        ∧ body.intermediates = some [(5, 6), (7, 8)] := by
  have h := waypoint_pipeline testNum "1,2" "3,4" "5,6|x|7,8" (1, 2) (3, 4)
    (by decide) (by decide) (by decide)
  refine ⟨by decide, ?_⟩
  obtain ⟨body, hb, hi⟩ := h.2.2.2
  refine ⟨body, hb, ?_⟩
  rw [hi]
  decide

/-! ### Claim C10 -/

/-- Claim C10: the venue-details batch preserves input order — the venues
returned are exactly the venues of the successfully looked-up identifiers,
an order-preserving sublist of the sanitized input list, because the
concurrent lookups are joined by input position before failed lookups are
filtered out. -/
theorem details_order_preserved (ids : String) (lookup : String → LookupOutcome)
    (h : sanitizeIds ids ≠ []) :
    List.Sublist
      ((sanitizeIds ids).filter fun i => (lookupVenue (lookup i)).isSome)
      (sanitizeIds ids)
    ∧ detailsHandler lookup (some ids)
        = .ok
            (((sanitizeIds ids).filter fun i => (lookupVenue (lookup i)).isSome).map
              fun i => (lookupVenue (lookup i)).getD emptyVenue)
            "OK" := by
  refine ⟨List.filter_sublist _, ?_⟩
  rw [detailsHandler_ok ids lookup h,
    reduceOption_map_eq_filter (sanitizeIds ids)
      (fun i => lookupVenue (lookup i)) emptyVenue]

/-- Witness for claim C10: with identifiers `x, q, x` where only `x`
resolves, both surviving venues come back in input order. -/
theorem details_order_preserved_witness :
    detailsHandler lookupEx (some "x, q ,x")
      = .ok [normalize minimalPlace, normalize minimalPlace] "OK" := by
  have h := (details_order_preserved "x, q ,x" lookupEx (by decide)).2
  rw [h]
  decide

end Crawl
